import Mathlib

set_option maxHeartbeats 1000000

/-
Verification of the iai-callgrind Valgrind client-request bridge.

Embedded source files:
  * src/iai-callgrind/valgrind/native.c
      valgrind_do_client_request_expr, valgrind_printf, valgrind_printf_backtrace
  * src/client-request-tests/valgrind/wrapper.c
      print_error, running_on_valgrind

The Valgrind macros that the bridge invokes (RUNNING_ON_VALGRIND,
VALGRIND_DO_CLIENT_REQUEST_EXPR, VALGRIND_PRINTF, VALGRIND_PRINTF_BACKTRACE)
live in the external valgrind.h header, not in this repository; they are
modelled here from the behaviour the spec assigns them (a client request is a
no-op that leaves the default value in place when no tool is attached, and is
answered by the attached tool otherwise).
-/

/-- size_t values crossing the bridge.  The bridge performs no arithmetic on
them: every word is passed through registers untouched, so the unbounded
natural numbers are a faithful carrier for machine words. -/
abbrev Word := Nat

/-- The run-time Valgrind condition of the process: which tool (if any) is
attached, how deeply the emulated CPU is nested beyond the first level, the
stack frames a backtrace request would print, and the attached tool's response
function for client requests (`none` = request unhandled, so the default is
kept). -/
structure VgEnv where
  tool : Option String
  nesting : Nat
  stackFrames : List String
  handle : Word → Word → Word → Word → Word → Word → Option Word

/-- Modelled from the spec: the RUNNING_ON_VALGRIND macro of the external
valgrind.h header returns 0 when the process is not running under a Valgrind
tool and the strictly positive emulated-CPU depth when it is. -/
def RUNNING_ON_VALGRIND (env : VgEnv) : Word :=
  match env.tool with
  | none => 0
  | some _ => env.nesting + 1

/-- Modelled from the spec: the VALGRIND_DO_CLIENT_REQUEST_EXPR macro of the
external valgrind.h header issues the magic instruction sequence.  Absent a
tool it is a no-op that leaves the default value in place; under a tool the
tool's response replaces the default, except that an unhandled request again
yields the default. -/
def VALGRIND_DO_CLIENT_REQUEST_EXPR (env : VgEnv)
    (d rq a1 a2 a3 a4 a5 : Word) : Word :=
  match env.tool with
  | none => d
  | some _ => (env.handle rq a1 a2 a3 a4 a5).getD d

/-- One step of C printf-style formatting restricted to the `%s` directive,
which is the only directive the bridge ever passes: directives are interpreted
in the format string only, never inside the substituted argument. -/
def cFormatS (arg : String) : List Char → List Char
  | [] => []
  | '%' :: 's' :: rest => arg.data ++ cFormatS arg rest
  | c :: rest => c :: cFormatS arg rest

/-- C formatting of a format string against one string argument (`%s`). -/
def cFormat (fmt : String) (arg : String) : String :=
  ⟨cFormatS arg fmt.data⟩

/-- The literal format string `"%s"` that native.c passes to both print
macros. -/
def percentS : String := "%s"

/-- Modelled from the spec: the VALGRIND_PRINTF macro of the external
valgrind.h header formats its arguments, emits the result on Valgrind's log
channel when a tool is attached, and returns the number of characters written;
absent a tool the underlying client request is a no-op and the macro returns
its built-in default 0 with no output. -/
def VALGRIND_PRINTF (env : VgEnv) (fmt arg : String) : List String × Int :=
  match env.tool with
  | none => ([], 0)
  | some _ => ([cFormat fmt arg], ((cFormat fmt arg).length : Int))

/-- Modelled from the spec: VALGRIND_PRINTF_BACKTRACE behaves as
VALGRIND_PRINTF and additionally appends the current stack frames to the log
output. -/
def VALGRIND_PRINTF_BACKTRACE (env : VgEnv) (fmt arg : String) :
    List String × Int :=
  match env.tool with
  | none => ([], 0)
  | some _ =>
    ([cFormat fmt arg] ++ env.stackFrames, ((cFormat fmt arg).length : Int))

/-- The compile-time configuration of wrapper.c: whether the installed
valgrind.h defines RUNNING_ON_VALGRIND, and the header's
__VALGRIND_MAJOR__ / __VALGRIND_MINOR__ version numbers. -/
structure HeaderConfig where
  definesRUNNING_ON_VALGRIND : Bool
  valgrindMajor : Nat
  valgrindMinor : Nat

/-- The text of wrapper.c's fprintf format before the %s directive. -/
def errA : String := "valgrind client requests: ERROR: "

/-- The text of wrapper.c's fprintf format between the %s directive and the
first %d directive. -/
def errB : String := " not defined! You may need to check your installed valgrind version having this client request available. The valgrind version of the valgrind.h header file is "

/-- The text of wrapper.c's fprintf format after the second %d directive. -/
def errZ : String := ". Exiting...\n"

/-- The single line that wrapper.c's print_error writes to standard error:
the fprintf format
"valgrind client requests: ERROR: %s not defined! ... is %d.%d. Exiting...\n"
applied to the macro name and the header's major/minor version.  The
concatenation is grouped to the right so that each interesting token sits at
the head of a tail of the message. -/
def errorMessage (cfg : HeaderConfig) (var : String) : String :=
  errA ++
    (var ++
      (errB ++
        (toString cfg.valgrindMajor ++
          ("." ++ (toString cfg.valgrindMinor ++ errZ)))))

/-- print_error of wrapper.c: it writes exactly the one diagnostic line to
standard error and returns; it does not itself terminate the process. -/
def print_error (cfg : HeaderConfig) (var : String) : List String :=
  [errorMessage cfg var]

/-- How a bridge call ends: it returns a value, or it terminates the whole
process via exit with the given C int argument. -/
inductive CallResult (α : Type) where
  | ok : α → CallResult α
  | exited : Int → CallResult α
deriving DecidableEq

/-- Everything observable about one bridge call: the lines it wrote to the
process's standard error, the lines it put on Valgrind's log channel, and how
it ended. -/
structure Outcome (α : Type) where
  stderrLines : List String
  logLines : List String
  result : CallResult α
deriving DecidableEq

/-- The exit status the parent observes for a C exit(code):
the low 8 bits of the int argument. -/
def observedExitStatus (code : Int) : Nat := (code % 256).toNat

/-- running_on_valgrind of wrapper.c.  When the header defines
RUNNING_ON_VALGRIND the shim returns the macro's value; otherwise the compiled
fallback branch calls print_error("RUNNING_ON_VALGRIND") and then exit(-1). -/
def running_on_valgrind (cfg : HeaderConfig) (env : VgEnv) : Outcome Word :=
  if cfg.definesRUNNING_ON_VALGRIND then
    { stderrLines := [], logLines := [],
      result := CallResult.ok (RUNNING_ON_VALGRIND env) }
  else
    { stderrLines := print_error cfg "RUNNING_ON_VALGRIND", logLines := [],
      result := CallResult.exited (-1) }

/-- valgrind_do_client_request_expr of native.c: it forwards its seven words
to VALGRIND_DO_CLIENT_REQUEST_EXPR and returns the macro's value. -/
def valgrind_do_client_request_expr (env : VgEnv)
    (d rq a1 a2 a3 a4 a5 : Word) : Word :=
  VALGRIND_DO_CLIENT_REQUEST_EXPR env d rq a1 a2 a3 a4 a5

/-- valgrind_printf of native.c: `return VALGRIND_PRINTF("%s", message);`.
The macro is invoked unconditionally - the function contains no conditional on
macro availability, never writes to standard error and never exits. -/
def valgrind_printf (env : VgEnv) (message : String) : Outcome Int :=
  { stderrLines := [], logLines := (VALGRIND_PRINTF env percentS message).1,
    result := CallResult.ok ((VALGRIND_PRINTF env percentS message).2) }

/-- valgrind_printf_backtrace of native.c:
`return VALGRIND_PRINTF_BACKTRACE("%s", message);`, again unconditional. -/
def valgrind_printf_backtrace (env : VgEnv) (message : String) : Outcome Int :=
  { stderrLines := [],
    logLines := (VALGRIND_PRINTF_BACKTRACE env percentS message).1,
    result := CallResult.ok ((VALGRIND_PRINTF_BACKTRACE env percentS message).2) }

/-- The seven-word argument tuple of one dispatcher call. -/
structure DispatchArgs where
  d : Word
  rq : Word
  a1 : Word
  a2 : Word
  a3 : Word
  a4 : Word
  a5 : Word
deriving DecidableEq

/-- The dispatcher's pure value on one argument tuple under a given Valgrind
condition. -/
def dispatchOf (env : VgEnv) (c : DispatchArgs) : Word :=
  valgrind_do_client_request_expr env c.d c.rq c.a1 c.a2 c.a3 c.a4 c.a5

/-- The whole-program state surrounding a bridge call: the Valgrind run-time
condition, the program's own global variables (the bridge declares none), the
caller's message buffer, Valgrind's log channel, and the standard error
stream. -/
structure SysState where
  env : VgEnv
  programGlobals : List Word
  callerBytes : String
  vgLog : List String
  errStream : List String

/-- One dispatcher call as a state transformer.  Per the source the dispatcher
only issues the magic sequence and returns the resulting word; it has no
observable side effect. -/
def dispatchStep (s : SysState) (c : DispatchArgs) : Word × SysState :=
  (dispatchOf s.env c, s)

/-- One valgrind_printf call on the caller's buffer as a state transformer:
the macro's log output is appended to Valgrind's log channel. -/
def printfStep (s : SysState) : Outcome Int × SysState :=
  (valgrind_printf s.env s.callerBytes,
   { s with
     vgLog := s.vgLog ++ (valgrind_printf s.env s.callerBytes).logLines,
     errStream :=
       s.errStream ++ (valgrind_printf s.env s.callerBytes).stderrLines })

/-- One valgrind_printf_backtrace call on the caller's buffer as a state
transformer. -/
def backtraceStep (s : SysState) : Outcome Int × SysState :=
  (valgrind_printf_backtrace s.env s.callerBytes,
   { s with
     vgLog :=
       s.vgLog ++ (valgrind_printf_backtrace s.env s.callerBytes).logLines,
     errStream :=
       s.errStream ++
         (valgrind_printf_backtrace s.env s.callerBytes).stderrLines })

/-- Sequential execution of a list of dispatcher calls, threading the state
through every call, collecting the returned words. -/
def runDispatchCalls : SysState → List DispatchArgs → List Word × SysState
  | s, [] => ([], s)
  | s, c :: cs =>
    let r := dispatchStep s c
    let rest := runDispatchCalls r.2 cs
    (r.1 :: rest.1, rest.2)

/-- A process not under any Valgrind tool. -/
def envPlain : VgEnv :=
  { tool := none, nesting := 0, stackFrames := [],
    handle := fun _ _ _ _ _ _ => none }

/-- A process running under Memcheck at depth 1, with one stack frame
available to backtrace requests, whose tool handles no request. -/
def envMem : VgEnv :=
  { tool := some "memcheck", nesting := 0, stackFrames := ["at 0x1: main"],
    handle := fun _ _ _ _ _ _ => none }

/-- A header that defines RUNNING_ON_VALGRIND, version 3.22. -/
def cfgFull : HeaderConfig :=
  { definesRUNNING_ON_VALGRIND := true, valgrindMajor := 3,
    valgrindMinor := 22 }

/-- A stripped header that lacks RUNNING_ON_VALGRIND, version 3.22. -/
def cfgStripped : HeaderConfig :=
  { definesRUNNING_ON_VALGRIND := false, valgrindMajor := 3,
    valgrindMinor := 22 }

/-- A concrete dispatcher argument tuple. -/
def argsA : DispatchArgs := ⟨42, 0, 0, 0, 0, 0, 0⟩

/-- A second concrete dispatcher argument tuple. -/
def argsB : DispatchArgs := ⟨7, 1, 2, 3, 4, 5, 6⟩

/-- A concrete uninstrumented whole-program state. -/
def sysPlain : SysState :=
  { env := envPlain, programGlobals := [0, 1], callerBytes := "hello",
    vgLog := [], errStream := [] }

/-- Formatting the single directive `%s` against a message yields exactly the
message: directives inside the message itself are never interpreted. -/
theorem cFormat_percentS (m : String) : cFormat percentS m = m := by
  have h : cFormat percentS m = ⟨m.data ++ []⟩ := rfl
  rw [h, List.append_nil]

/-- Sequential dispatcher execution maps the pure dispatcher value over the
call list and leaves the state untouched. -/
theorem runDispatchCalls_eq (s : SysState) (l : List DispatchArgs) :
    runDispatchCalls s l = (l.map (dispatchOf s.env), s) := by
  induction l with
  | nil => rfl
  | cons c cs ih => simp [runDispatchCalls, dispatchStep, ih]

/-- The diagnostic line split right before the macro-name token. -/
theorem errorMessage_at_var (cfg : HeaderConfig) (var : String) :
    errorMessage cfg var =
      errA ++
        (var ++
          (errB ++
            (toString cfg.valgrindMajor ++
              ("." ++ (toString cfg.valgrindMinor ++ errZ))))) := rfl

/-- The diagnostic line split right before the major-version number. -/
theorem errorMessage_at_major (cfg : HeaderConfig) (var : String) :
    errorMessage cfg var =
      (errA ++ (var ++ errB)) ++
        (toString cfg.valgrindMajor ++
          ("." ++ (toString cfg.valgrindMinor ++ errZ))) := by
  simp [errorMessage, String.append_assoc]

/-- The diagnostic line split right before the minor-version number. -/
theorem errorMessage_at_minor (cfg : HeaderConfig) (var : String) :
    errorMessage cfg var =
      (errA ++ (var ++ (errB ++ (toString cfg.valgrindMajor ++ ".")))) ++
        (toString cfg.valgrindMinor ++ errZ) := by
  simp [errorMessage, String.append_assoc]

/-- Claim C1, counterexample.  The claim asserts that every one of the three
shims fails loud when its underlying macro is missing, but native.c's
valgrind_printf (line 14) invokes VALGRIND_PRINTF unconditionally: its source
contains no conditional on macro availability at all, so on any call it writes
nothing to standard error and returns a value instead of terminating -
contradicting "writes exactly one diagnostic line ... and terminates the
process". -/
theorem C1_counterexample :
    (valgrind_printf envPlain "x").stderrLines = [] ∧
    (valgrind_printf envPlain "x").result = CallResult.ok 0 ∧
    ¬ ((valgrind_printf envPlain "x").stderrLines.length = 1) :=
  ⟨rfl, rfl, by decide⟩

/-- Claim C1, amended.  Only running_on_valgrind has a missing-macro path:
when the header lacks RUNNING_ON_VALGRIND it writes exactly the one diagnostic
line of print_error to standard error and terminates via exit(-1), a non-zero
observed status; valgrind_printf and valgrind_printf_backtrace unconditionally
invoke their macro, return its int result, and never write to standard error
or terminate. -/
theorem C1_missing_macro_path (cfg : HeaderConfig) (env : VgEnv) (m : String)
    (h : cfg.definesRUNNING_ON_VALGRIND = false) :
    (running_on_valgrind cfg env).stderrLines =
      [errorMessage cfg "RUNNING_ON_VALGRIND"] ∧
    (running_on_valgrind cfg env).result = CallResult.exited (-1) ∧
    observedExitStatus (-1) ≠ 0 ∧
    (valgrind_printf env m).stderrLines = [] ∧
    (valgrind_printf env m).result =
      CallResult.ok ((VALGRIND_PRINTF env percentS m).2) ∧
    (valgrind_printf_backtrace env m).stderrLines = [] ∧
    (valgrind_printf_backtrace env m).result =
      CallResult.ok ((VALGRIND_PRINTF_BACKTRACE env percentS m).2) := by
  refine ⟨?_, ?_, by decide, rfl, rfl, rfl, rfl⟩ <;>
    simp [running_on_valgrind, h, print_error]

/-- Claim C1, witness for the amended theorem at the stripped 3.22 header. -/
theorem C1_missing_macro_path_witness :
    (running_on_valgrind cfgStripped envPlain).stderrLines =
      [errorMessage cfgStripped "RUNNING_ON_VALGRIND"] ∧
    (running_on_valgrind cfgStripped envPlain).result =
      CallResult.exited (-1) ∧
    observedExitStatus (-1) ≠ 0 ∧
    (valgrind_printf envPlain "hello").stderrLines = [] ∧
    (valgrind_printf envPlain "hello").result =
      CallResult.ok ((VALGRIND_PRINTF envPlain percentS "hello").2) ∧
    (valgrind_printf_backtrace envPlain "hello").stderrLines = [] ∧
    (valgrind_printf_backtrace envPlain "hello").result =
      CallResult.ok ((VALGRIND_PRINTF_BACKTRACE envPlain percentS "hello").2) :=
  C1_missing_macro_path cfgStripped envPlain "hello" rfl

/-- Claim C2: when no Valgrind tool is attached, the dispatcher returns
exactly its default argument, for every request code - recognized or not -
and every argument tuple. -/
theorem C2_default_without_tool (env : VgEnv) (d rq a1 a2 a3 a4 a5 : Word)
    (h : env.tool = none) :
    valgrind_do_client_request_expr env d rq a1 a2 a3 a4 a5 = d := by
  simp [valgrind_do_client_request_expr, VALGRIND_DO_CLIENT_REQUEST_EXPR, h]

/-- Claim C2, witness: dispatch with default 0x1234 and request 0 outside
Valgrind returns 0x1234. -/
theorem C2_default_without_tool_witness :
    valgrind_do_client_request_expr envPlain 4660 0 0 0 0 0 0 = 4660 :=
  C2_default_without_tool envPlain 4660 0 0 0 0 0 0 rfl

/-- Claim C3: built against a header lacking RUNNING_ON_VALGRIND, every call
of running_on_valgrind writes a standard-error diagnostic whose text contains
the token RUNNING_ON_VALGRIND and exits the process with a non-zero status. -/
theorem C3_fail_loud (cfg : HeaderConfig) (env : VgEnv)
    (h : cfg.definesRUNNING_ON_VALGRIND = false) :
    (running_on_valgrind cfg env).stderrLines =
      [errorMessage cfg "RUNNING_ON_VALGRIND"] ∧
    (∃ s t : String, errorMessage cfg "RUNNING_ON_VALGRIND" =
      s ++ ("RUNNING_ON_VALGRIND" ++ t)) ∧
    (running_on_valgrind cfg env).result = CallResult.exited (-1) ∧
    observedExitStatus (-1) ≠ 0 := by
  refine ⟨?_, ⟨errA, _, errorMessage_at_var cfg "RUNNING_ON_VALGRIND"⟩, ?_,
      by decide⟩ <;>
    simp [running_on_valgrind, h, print_error]

/-- Claim C3, witness at the stripped 3.22 header. -/
theorem C3_fail_loud_witness :
    (running_on_valgrind cfgStripped envPlain).stderrLines =
      [errorMessage cfgStripped "RUNNING_ON_VALGRIND"] ∧
    (∃ s t : String, errorMessage cfgStripped "RUNNING_ON_VALGRIND" =
      s ++ ("RUNNING_ON_VALGRIND" ++ t)) ∧
    (running_on_valgrind cfgStripped envPlain).result =
      CallResult.exited (-1) ∧
    observedExitStatus (-1) ≠ 0 :=
  C3_fail_loud cfgStripped envPlain rfl

/-- Claim C4: whenever the underlying macro is available the shims return the
macro's value without reinterpretation: running_on_valgrind returns
RUNNING_ON_VALGRIND, and the print shims return exactly the int their macro
computed for the "%s"-formatted message. -/
theorem C4_returns_macro_value (cfg : HeaderConfig) (env : VgEnv) (m : String)
    (h : cfg.definesRUNNING_ON_VALGRIND = true) :
    (running_on_valgrind cfg env).result =
      CallResult.ok (RUNNING_ON_VALGRIND env) ∧
    (valgrind_printf env m).result =
      CallResult.ok ((VALGRIND_PRINTF env percentS m).2) ∧
    (valgrind_printf_backtrace env m).result =
      CallResult.ok ((VALGRIND_PRINTF_BACKTRACE env percentS m).2) := by
  refine ⟨?_, rfl, rfl⟩
  simp [running_on_valgrind, h]

/-- Claim C4, witness under Memcheck with the full 3.22 header. -/
theorem C4_returns_macro_value_witness :
    (running_on_valgrind cfgFull envMem).result =
      CallResult.ok (RUNNING_ON_VALGRIND envMem) ∧
    (valgrind_printf envMem "msg").result =
      CallResult.ok ((VALGRIND_PRINTF envMem percentS "msg").2) ∧
    (valgrind_printf_backtrace envMem "msg").result =
      CallResult.ok ((VALGRIND_PRINTF_BACKTRACE envMem percentS "msg").2) :=
  C4_returns_macro_value cfgFull envMem "msg" rfl

/-- Claim C5: under a Valgrind tool, valgrind_printf puts the literal bytes of
the message on the log channel - the message is substituted into the fixed
"%s" format, so directives inside the message are never interpreted - and
returns the non-negative count of characters written. -/
theorem C5_literal_format (env : VgEnv) (m tl : String)
    (h : env.tool = some tl) :
    (valgrind_printf env m).logLines = [m] ∧
    (valgrind_printf env m).result = CallResult.ok ((m.length : Int)) ∧
    0 ≤ ((m.length : Int)) := by
  refine ⟨?_, ?_, Int.natCast_nonneg _⟩ <;>
    simp [valgrind_printf, VALGRIND_PRINTF, h, cFormat_percentS]

/-- Claim C5, witness: a message carrying a %d directive is logged
literally under Memcheck. -/
theorem C5_literal_format_witness :
    (valgrind_printf envMem "hi %d\n").logLines = ["hi %d\n"] ∧
    (valgrind_printf envMem "hi %d\n").result =
      CallResult.ok (("hi %d\n".length : Int)) ∧
    0 ≤ (("hi %d\n".length : Int)) :=
  C5_literal_format envMem "hi %d\n" "memcheck" rfl

/-- Claim C6: with the macro available, running_on_valgrind returns the
machine-word RUNNING_ON_VALGRIND value - 0 when no tool is attached and a
strictly positive emulated-CPU depth under any tool. -/
theorem C6_detection (cfg : HeaderConfig) (env : VgEnv)
    (h : cfg.definesRUNNING_ON_VALGRIND = true) :
    (running_on_valgrind cfg env).result =
      CallResult.ok (RUNNING_ON_VALGRIND env) ∧
    (env.tool = none → RUNNING_ON_VALGRIND env = 0) ∧
    (∀ tl, env.tool = some tl → 0 < RUNNING_ON_VALGRIND env) := by
  refine ⟨?_, ?_, ?_⟩
  · simp [running_on_valgrind, h]
  · intro ht
    simp [RUNNING_ON_VALGRIND, ht]
  · intro tl ht
    simp [RUNNING_ON_VALGRIND, ht]

/-- Claim C6, witness: under Memcheck the shim returns the macro value, which
is strictly positive. -/
theorem C6_detection_witness :
    (running_on_valgrind cfgFull envMem).result =
      CallResult.ok (RUNNING_ON_VALGRIND envMem) ∧
    0 < RUNNING_ON_VALGRIND envMem :=
  ⟨(C6_detection cfgFull envMem rfl).1,
   (C6_detection cfgFull envMem rfl).2.2 "memcheck" rfl⟩

/-- Claim C7: the dispatcher is deterministic and stateless.  Two calls with
the same seven-word tuple under the same instrumentation condition return the
same word; a run of dispatcher calls leaves the whole-program state untouched;
and any interleaving of N threads' K calls each - i.e. any permutation of the
serial call list - produces the same multiset of results. -/
theorem C7_stateless_determinism (s1 s2 : SysState) (c : DispatchArgs)
    (henv : s1.env = s2.env) (s : SysState) (l1 l2 : List DispatchArgs)
    (hperm : List.Perm l1 l2) :
    (dispatchStep s1 c).1 = (dispatchStep s2 c).1 ∧
    (runDispatchCalls s l1).2 = s ∧
    List.Perm (runDispatchCalls s l1).1 (runDispatchCalls s l2).1 := by
  refine ⟨by simp [dispatchStep, henv], ?_, ?_⟩
  · rw [runDispatchCalls_eq]
  · rw [runDispatchCalls_eq, runDispatchCalls_eq]
    exact hperm.map _

/-- Claim C7, witness: two concrete calls in either order yield the same
multiset of results and leave the state unchanged. -/
theorem C7_stateless_determinism_witness :
    (dispatchStep sysPlain argsA).1 = (dispatchStep sysPlain argsA).1 ∧
    (runDispatchCalls sysPlain [argsA, argsB]).2 = sysPlain ∧
    List.Perm (runDispatchCalls sysPlain [argsA, argsB]).1
      (runDispatchCalls sysPlain [argsB, argsA]).1 :=
  C7_stateless_determinism sysPlain sysPlain argsA rfl sysPlain
    [argsA, argsB] [argsB, argsA] (List.Perm.swap argsB argsA [])

/-- Claim C8: the print shims have no missing-macro fallback.  For every
environment and message they write nothing to standard error and return
normally with exactly the int their unconditionally invoked macro computed. -/
theorem C8_unconditional_printf (env : VgEnv) (m : String) :
    (valgrind_printf env m).stderrLines = [] ∧
    (valgrind_printf env m).result =
      CallResult.ok ((VALGRIND_PRINTF env percentS m).2) ∧
    (valgrind_printf_backtrace env m).stderrLines = [] ∧
    (valgrind_printf_backtrace env m).result =
      CallResult.ok ((VALGRIND_PRINTF_BACKTRACE env percentS m).2) :=
  ⟨rfl, rfl, rfl, rfl⟩

/-- Claim C9: the missing-macro path of running_on_valgrind terminates via
exit(-1), observed as status 255; the single standard-error line is part of
the same call's outcome and contains, besides the macro name, the header's
major and minor version numbers. -/
theorem C9_exit_status_255 (cfg : HeaderConfig) (env : VgEnv)
    (h : cfg.definesRUNNING_ON_VALGRIND = false) :
    (running_on_valgrind cfg env).result = CallResult.exited (-1) ∧
    observedExitStatus (-1) = 255 ∧
    (running_on_valgrind cfg env).stderrLines =
      [errorMessage cfg "RUNNING_ON_VALGRIND"] ∧
    (∃ s t : String, errorMessage cfg "RUNNING_ON_VALGRIND" =
      s ++ (toString cfg.valgrindMajor ++ t)) ∧
    (∃ s t : String, errorMessage cfg "RUNNING_ON_VALGRIND" =
      s ++ (toString cfg.valgrindMinor ++ t)) := by
  refine ⟨?_, by decide, ?_,
      ⟨errA ++ ("RUNNING_ON_VALGRIND" ++ errB), _,
        errorMessage_at_major cfg "RUNNING_ON_VALGRIND"⟩,
      ⟨errA ++ ("RUNNING_ON_VALGRIND" ++
          (errB ++ (toString cfg.valgrindMajor ++ "."))), _,
        errorMessage_at_minor cfg "RUNNING_ON_VALGRIND"⟩⟩ <;>
    simp [running_on_valgrind, h, print_error]

/-- Claim C9, witness at the stripped 3.22 header. -/
theorem C9_exit_status_255_witness :
    (running_on_valgrind cfgStripped envPlain).result =
      CallResult.exited (-1) ∧
    observedExitStatus (-1) = 255 ∧
    (running_on_valgrind cfgStripped envPlain).stderrLines =
      [errorMessage cfgStripped "RUNNING_ON_VALGRIND"] ∧
    (∃ s t : String, errorMessage cfgStripped "RUNNING_ON_VALGRIND" =
      s ++ (toString cfgStripped.valgrindMajor ++ t)) ∧
    (∃ s t : String, errorMessage cfgStripped "RUNNING_ON_VALGRIND" =
      s ++ (toString cfgStripped.valgrindMinor ++ t)) :=
  C9_exit_status_255 cfgStripped envPlain rfl

/-- Claim C10: no bridge call writes through the caller's buffer or any
program-visible global.  The dispatcher leaves the whole state identical, and
the print shims leave the caller's bytes, the program globals and the Valgrind
condition identical, touching only Valgrind's own output channel. -/
theorem C10_frame (s : SysState) (c : DispatchArgs) :
    (dispatchStep s c).2 = s ∧
    (printfStep s).2.callerBytes = s.callerBytes ∧
    (printfStep s).2.programGlobals = s.programGlobals ∧
    (printfStep s).2.env = s.env ∧
    (backtraceStep s).2.callerBytes = s.callerBytes ∧
    (backtraceStep s).2.programGlobals = s.programGlobals ∧
    (backtraceStep s).2.env = s.env :=
  ⟨rfl, rfl, rfl, rfl, rfl, rfl, rfl⟩
